import Mathlib

/-!
Shallow embedding of `express-io-validator` (src/index.ts): an Express
middleware adapter that validates request body/query/params against io-ts
schemas, formatting decode failures into a 400 JSON response.

JavaScript runtime values are modelled by the inductive `JSValue`;
`JSON.stringify` and JS `String(...)` coercion are modelled by
`jsonStringify` and `jsToString` on that universe.  Express request/response
mutation is modelled by explicit state passing (`MwState`); a middleware
returns the new state together with the number of times it invoked the
continuation `next`.
-/

/-- A JavaScript runtime value (the universe the middleware manipulates). -/
inductive JSValue where
  | vNull : JSValue
  | vUndefined : JSValue
  | vBool : Bool → JSValue
  | vNum : Int → JSValue
  | vStr : String → JSValue
  | vArr : List JSValue → JSValue
  | vObj : List (String × JSValue) → JSValue

/-- JS truthiness of `null`/`undefined` only: the test performed by `??`. -/
def isNullish : JSValue → Bool
  | .vNull => true
  | .vUndefined => true
  | _ => false

/-- `typeof v === "object" && v !== null`: arrays and plain objects. -/
def isNonNullObject : JSValue → Bool
  | .vArr _ => true
  | .vObj _ => true
  | _ => false

/-- Is the value `undefined` (dropped as an object field by JSON.stringify). -/
def isUndef : JSValue → Bool
  | .vUndefined => true
  | _ => false

def jsonEscapeChar (c : Char) : String :=
  if c = '\"' then "\\\"" else if c = '\\' then "\\\\" else String.singleton c

/-- Double-quoted JSON string literal. -/
def jsonQuote (s : String) : String :=
  "\"" ++ String.join (s.toList.map jsonEscapeChar) ++ "\""

mutual

/-- Model of `JSON.stringify` on `JSValue` (undefined serialises as null in
array position; undefined-valued object fields are dropped). -/
def jsonStringify : JSValue → String
  | .vNull => "null"
  | .vUndefined => "null"
  | .vBool true => "true"
  | .vBool false => "false"
  | .vNum n => toString n
  | .vStr s => jsonQuote s
  | .vArr xs => "[" ++ String.intercalate "," (jsonElems xs) ++ "]"
  | .vObj fs => "\x7b" ++ String.intercalate "," (jsonFields fs) ++ "\x7d"

def jsonElems : List JSValue → List String
  | [] => []
  | v :: rest => jsonStringify v :: jsonElems rest

def jsonFields : List (String × JSValue) → List String
  | [] => []
  | (k, v) :: rest =>
    if isUndef v then jsonFields rest
    else (jsonQuote k ++ ":" ++ jsonStringify v) :: jsonFields rest

end

mutual

/-- Model of JS `String(v)` coercion. -/
def jsToString : JSValue → String
  | .vNull => "null"
  | .vUndefined => "undefined"
  | .vBool true => "true"
  | .vBool false => "false"
  | .vNum n => toString n
  | .vStr s => s
  | .vObj _ => "[object Object]"
  | .vArr xs => String.intercalate "," (arrayElemStrings xs)

def arrayElemStrings : List JSValue → List String
  | [] => []
  | v :: rest => (if isNullish v then "" else jsToString v) :: arrayElemStrings rest

end

/-- One io-ts `ContextEntry`: a field-access step with its key and the name
of the expected type at that step. -/
structure ContextEntry where
  key : String
  typeName : String
  deriving DecidableEq

/-- One io-ts `ValidationError`: the context path from the root to the
offending field, plus the actual raw value encountered there. -/
structure IssueDetail where
  context : List ContextEntry
  value : JSValue

/-- The `DefaultErrors` record produced by the default formatter. -/
structure DefaultErrors where
  key : String
  expected : String
  actual : String
  message : String
  deriving DecidableEq

/-- Body of the arrow function inside `formatValidationErrors`
(src/index.ts lines 230-252): formats one issue. -/
def formatOneError (err : IssueDetail) : DefaultErrors :=
  let path := String.intercalate "."
    (((err.context.drop 1).map (fun c => c.key)).filter (fun k => k ≠ ""))
  let lastContext := err.context.getLast?
  let key :=
    if path ≠ "" then path
    else
      match lastContext with
      | some c => if c.key ≠ "" then c.key else "unknown"
      | none => "unknown"
  let expected :=
    match lastContext with
    | some c => if c.typeName ≠ "" then c.typeName else "unknown"
    | none => "unknown"
  let actual :=
    if isNonNullObject err.value then jsonStringify err.value
    else jsToString err.value
  let message :=
    "Invalid value for \x27" ++ key ++ "\x27: expected " ++ expected ++
      ", got " ++ actual
  ⟨key, expected, actual, message⟩

/-- `formatValidationErrors` (src/index.ts lines 229-253): maps the
per-issue formatter over the error list. -/
def formatValidationErrors (error : List IssueDetail) : List DefaultErrors :=
  error.map formatOneError

/-- One formatted error as the JS object value it becomes in the payload. -/
def defaultErrorToJS (e : DefaultErrors) : JSValue :=
  .vObj [("key", .vStr e.key), ("expected", .vStr e.expected),
         ("actual", .vStr e.actual), ("message", .vStr e.message)]

/-- An io-ts schema, reduced to its decode capability (`t.Any`):
`decode raw` is `Either` errors / decoded value. -/
structure Schema where
  decode : JSValue → Except (List IssueDetail) JSValue

/-- `ErrorHandler = (error: t.Errors) => unknown`. -/
abbrev ErrorHandler := List IssueDetail → JSValue

/-- `defaultErrorHandler` (src/index.ts lines 255-257): returns the BARE
formatted array (not wrapped under `errors`). -/
def defaultErrorHandler : ErrorHandler :=
  fun error => .vArr ((formatValidationErrors error).map defaultErrorToJS)

/-- The inline fallback `\x7b errors: formatValidationErrors(result.left) \x7d`
used when `errorHandler?.(...)` is absent or nullish. -/
def fallbackPayload (issues : List IssueDetail) : JSValue :=
  .vObj [("errors", .vArr ((formatValidationErrors issues).map defaultErrorToJS))]

/-- `errorHandler?.(result.left) ?? \x7b errors: ... \x7d`: the payload of the
400 response. -/
def computePayload (errorHandler : Option ErrorHandler)
    (issues : List IssueDetail) : JSValue :=
  match errorHandler with
  | none => fallbackPayload issues
  | some h => if isNullish (h issues) then fallbackPayload issues else h issues

/-- The mutable request fields the middleware reads/writes. -/
structure Req where
  body : JSValue
  query : JSValue
  params : JSValue

/-- `res.locals`: the response side-channel. -/
structure Locals where
  typedQuery : Option JSValue
  typedParams : Option JSValue
  typedBody : Option JSValue

/-- The mutable response: HTTP status, JSON body written (if any), and
side-channel locals. -/
structure Res where
  status : Option Nat
  jsonBody : Option JSValue
  locals : Locals

/-- The per-request mutable state a middleware acts on. -/
structure MwState where
  req : Req
  res : Res

/-- A middleware maps the state to a new state plus the number of times it
invoked the continuation `next`. -/
abbrev Middleware := MwState → MwState × Nat

/-- A terminal route handler (arbitrary effect on the state). -/
abbrev Handler := MwState → MwState

/-- `validateBody` (src/index.ts lines 259-282): skip when no schema;
decode `req.body`; on failure write status 400 and the JSON payload; on
success overwrite `req.body` with the decoded value and call `next`. -/
def validateBody (schema : Option Schema) (errorHandler : Option ErrorHandler) :
    Middleware := fun s =>
  match schema with
  | none => (s, 1)
  | some sch =>
    match sch.decode s.req.body with
    | .error issues =>
      ({ s with
          res := { s.res with
            status := some 400,
            jsonBody := some (computePayload errorHandler issues) } }, 0)
    | .ok v => ({ s with req := { s.req with body := v } }, 1)

/-- `validateQuery` (src/index.ts lines 284-307): like `validateBody` but it
reads `req.query` and, on success, stores the decoded value only in
`res.locals.typedQuery` (the request is never mutated). -/
def validateQuery (schema : Option Schema) (errorHandler : Option ErrorHandler) :
    Middleware := fun s =>
  match schema with
  | none => (s, 1)
  | some sch =>
    match sch.decode s.req.query with
    | .error issues =>
      ({ s with
          res := { s.res with
            status := some 400,
            jsonBody := some (computePayload errorHandler issues) } }, 0)
    | .ok v =>
      ({ s with
          res := { s.res with
            locals := { s.res.locals with typedQuery := some v } } }, 1)

/-- `validateParams` (src/index.ts lines 309-332): reads `req.params`; on
success overwrites `req.params` in place (no side-channel mirror). -/
def validateParams (schema : Option Schema) (errorHandler : Option ErrorHandler) :
    Middleware := fun s =>
  match schema with
  | none => (s, 1)
  | some sch =>
    match sch.decode s.req.params with
    | .error issues =>
      ({ s with
          res := { s.res with
            status := some 400,
            jsonBody := some (computePayload errorHandler issues) } }, 0)
    | .ok v => ({ s with req := { s.req with params := v } }, 1)

/-- `createCombinedQueryMiddleware` (src/index.ts lines 334-357): same body
as `validateQuery`. -/
def createCombinedQueryMiddleware (schema : Option Schema)
    (errorHandler : Option ErrorHandler) : Middleware := fun s =>
  match schema with
  | none => (s, 1)
  | some sch =>
    match sch.decode s.req.query with
    | .error issues =>
      ({ s with
          res := { s.res with
            status := some 400,
            jsonBody := some (computePayload errorHandler issues) } }, 0)
    | .ok v =>
      ({ s with
          res := { s.res with
            locals := { s.res.locals with typedQuery := some v } } }, 1)

/-- `createCombinedParamsMiddleware` (src/index.ts lines 359-383): on
success overwrites `req.params` AND mirrors to `res.locals.typedParams`. -/
def createCombinedParamsMiddleware (schema : Option Schema)
    (errorHandler : Option ErrorHandler) : Middleware := fun s =>
  match schema with
  | none => (s, 1)
  | some sch =>
    match sch.decode s.req.params with
    | .error issues =>
      ({ s with
          res := { s.res with
            status := some 400,
            jsonBody := some (computePayload errorHandler issues) } }, 0)
    | .ok v =>
      ({ s with
          req := { s.req with params := v },
          res := { s.res with
            locals := { s.res.locals with typedParams := some v } } }, 1)

/-- `createCombinedBodyMiddleware` (src/index.ts lines 385-409): on success
overwrites `req.body` AND mirrors to `res.locals.typedBody`. -/
def createCombinedBodyMiddleware (schema : Option Schema)
    (errorHandler : Option ErrorHandler) : Middleware := fun s =>
  match schema with
  | none => (s, 1)
  | some sch =>
    match sch.decode s.req.body with
    | .error issues =>
      ({ s with
          res := { s.res with
            status := some 400,
            jsonBody := some (computePayload errorHandler issues) } }, 0)
    | .ok v =>
      ({ s with
          req := { s.req with body := v },
          res := { s.res with
            locals := { s.res.locals with typedBody := some v } } }, 1)

/-- The record of optional schemas passed to `validate`. -/
structure Schemas where
  query : Option Schema
  params : Option Schema
  body : Option Schema

/-- An element of the middleware chain returned by `validate`: either a
validation middleware or the terminal handler. -/
inductive Callable where
  | middleware (m : Middleware)
  | handlerStep (h : Handler)

/-- `validate` (src/index.ts lines 411-421): the exported combined composer,
with NO error handler bound. -/
def validate (schemas : Schemas) (handler : Handler) : List Callable :=
  [.middleware (createCombinedQueryMiddleware schemas.query none),
   .middleware (createCombinedParamsMiddleware schemas.params none),
   .middleware (createCombinedBodyMiddleware schemas.body none),
   .handlerStep handler]

/-- Express chain semantics: run callables in order; a middleware that does
not call `next` halts the chain; a handler is terminal.  Returns the final
state, the number of callables that executed, and whether a handler ran. -/
def runChain : List Callable → MwState → MwState × Nat × Bool
  | [], s => (s, 0, false)
  | .middleware m :: rest, s =>
    match m s with
    | (s1, n) =>
      if n = 1 then
        match runChain rest s1 with
        | (s2, k, hb) => (s2, k + 1, hb)
      else (s1, 1, false)
  | .handlerStep h :: _, s => (h s, 1, true)

/-- `validateBodyWithErrorHandler` (src/index.ts lines 430-437): binds an
error handler and fuses middleware construction with the route pair. -/
def validateBodyWithErrorHandler (errorHandler : ErrorHandler) :
    Schema → Handler → Middleware × Handler :=
  fun schema handler => (validateBody (some schema) (some errorHandler), handler)

/-- `validateQueryWithErrorHandler` (src/index.ts lines 439-446). -/
def validateQueryWithErrorHandler (errorHandler : ErrorHandler) :
    Schema → Handler → Middleware × Handler :=
  fun schema handler => (validateQuery (some schema) (some errorHandler), handler)

/-- `validateParamsWithErrorHandler` (src/index.ts lines 448-455). -/
def validateParamsWithErrorHandler (errorHandler : ErrorHandler) :
    Schema → Handler → Middleware × Handler :=
  fun schema handler => (validateParams (some schema) (some errorHandler), handler)

/-- `validateWithErrorHandler` (src/index.ts lines 457-469): the combined
composer with an error handler bound into every step. -/
def validateWithErrorHandler (errorHandler : ErrorHandler) :
    Schemas → Handler → List Callable :=
  fun schemas handler =>
    [.middleware (createCombinedQueryMiddleware schemas.query (some errorHandler)),
     .middleware (createCombinedParamsMiddleware schemas.params (some errorHandler)),
     .middleware (createCombinedBodyMiddleware schemas.body (some errorHandler)),
     .handlerStep handler]

/-- The object returned by `Validator`. -/
structure ValidatorOps where
  validateBody : Schema → Handler → Middleware × Handler
  validateQuery : Schema → Handler → Middleware × Handler
  validateParams : Schema → Handler → Middleware × Handler
  validate : Schemas → Handler → List Callable

/-- `Validator` (src/index.ts lines 471-484): every surface pre-bound to the
supplied error handler, falling back to `defaultErrorHandler`. -/
def Validator (errorHandler : Option ErrorHandler) : ValidatorOps :=
  { validateBody := validateBodyWithErrorHandler
      (errorHandler.getD defaultErrorHandler),
    validateQuery := validateQueryWithErrorHandler
      (errorHandler.getD defaultErrorHandler),
    validateParams := validateParamsWithErrorHandler
      (errorHandler.getD defaultErrorHandler),
    validate := validateWithErrorHandler
      (errorHandler.getD defaultErrorHandler) }

/-! Concrete fixtures used by witnesses and counterexamples. -/

/-- A one-issue error list blaming the root context for value `v`. -/
def failIssues (v : JSValue) : List IssueDetail := [⟨[⟨"", "T"⟩], v⟩]

/-- A schema that rejects every input. -/
def failingSchema : Schema := ⟨fun v => .error (failIssues v)⟩

/-- A schema that accepts every input unchanged. -/
def succeedingSchema : Schema := ⟨fun v => .ok v⟩

/-- A custom error handler that returns JS `null`. -/
def nullHandler : ErrorHandler := fun _ => .vNull

/-- A handler with no effect. -/
def idHandler : Handler := fun s => s

/-- A fresh request state: body 1, query 2, params 3, untouched response. -/
def initState : MwState :=
  ⟨⟨.vNum 1, .vNum 2, .vNum 3⟩, ⟨none, none, ⟨none, none, none⟩⟩⟩

/-- The io-ts error for `\x7b user: \x7b profile: \x7b name: 123 \x7d \x7d \x7d`
against a nested object schema: root entry plus one entry per field step. -/
def nestedIssue : IssueDetail :=
  ⟨[⟨"", "rootType"⟩, ⟨"user", "userType"⟩, ⟨"profile", "profileType"⟩,
    ⟨"name", "string"⟩], .vNum 123⟩

/-! Spec-side restatement of the default formatter (spec section 4.2),
used to check claim C3 against the code formatter. -/

/-- Modelled from the spec: names of the path steps after dropping the first
step, empty names removed, joined by dots. -/
def specPath (issue : IssueDetail) : String :=
  String.intercalate "."
    (((issue.context.drop 1).map (fun c => c.key)).filter (fun k => k ≠ ""))

/-- Modelled from the spec: the path if non-empty, else the last step's
name, else "unknown". -/
def specKey (issue : IssueDetail) : String :=
  if specPath issue ≠ "" then specPath issue
  else
    match issue.context.getLast? with
    | some c => if c.key ≠ "" then c.key else "unknown"
    | none => "unknown"

/-- Modelled from the spec: the last step's type name, else "unknown". -/
def specExpected (issue : IssueDetail) : String :=
  match issue.context.getLast? with
  | some c => if c.typeName ≠ "" then c.typeName else "unknown"
  | none => "unknown"

/-- Modelled from the spec: JSON serialisation for a non-null object, else
the string form of the raw value. -/
def specActual (issue : IssueDetail) : String :=
  if isNonNullObject issue.value then jsonStringify issue.value
  else jsToString issue.value

/-- Modelled from the spec: the fixed message template. -/
def specMessage (issue : IssueDetail) : String :=
  "Invalid value for \x27" ++ specKey issue ++ "\x27: expected " ++
    specExpected issue ++ ", got " ++ specActual issue

/-- C5: with `schema = undefined` every validation middleware (standalone
body/query/params and each combined step) proceeds: it calls the
continuation once and leaves the whole request/response state unchanged,
so no status 400 and no payload is written. -/
theorem missing_schema_skips (eh : Option ErrorHandler) (s : MwState) :
    validateBody none eh s = (s, 1) ∧
    validateQuery none eh s = (s, 1) ∧
    validateParams none eh s = (s, 1) ∧
    createCombinedQueryMiddleware none eh s = (s, 1) ∧
    createCombinedParamsMiddleware none eh s = (s, 1) ∧
    createCombinedBodyMiddleware none eh s = (s, 1) :=
  ⟨rfl, rfl, rfl, rfl, rfl, rfl⟩

/-- C3: the default formatter computes exactly the fields the spec
describes (path after dropping the root step with empty names removed and
dot-joined; key falling back to the last step's name then "unknown";
expected from the last step's type name; actual JSON-serialised for
non-null objects else stringified; the fixed message template), and a
failure at nested field user.profile.name yields that dotted key. -/
theorem default_formatter_matches_spec (issue : IssueDetail) :
    formatOneError issue =
      ⟨specKey issue, specExpected issue, specActual issue, specMessage issue⟩ ∧
    formatValidationErrors [issue] = [formatOneError issue] ∧
    (formatOneError nestedIssue).key = "user.profile.name" :=
  ⟨rfl, rfl, by decide⟩

/-- C7: the default formatter is a per-element map: same length, same
order, element i of the output is the formatting of element i of the
input, with no deduplication or grouping. -/
theorem formatter_is_elementwise_map (issues : List IssueDetail) (i : Nat) :
    formatValidationErrors issues = issues.map formatOneError ∧
    (formatValidationErrors issues).length = issues.length ∧
    (formatValidationErrors issues)[i]? = issues[i]?.map formatOneError :=
  ⟨rfl, by simp [formatValidationErrors], by
    simp [formatValidationErrors, List.getElem?_map]⟩

/-- C10: the default formatter is total; on an issue with an empty context
list (no last step) it still returns a record, with key and expected both
the literal "unknown". -/
theorem formatter_total_on_empty_context (issue : IssueDetail)
    (h : issue.context = []) :
    (formatOneError issue).key = "unknown" ∧
    (formatOneError issue).expected = "unknown" ∧
    formatValidationErrors [issue] = [formatOneError issue] := by
  refine ⟨?_, ?_, rfl⟩ <;>
    simp [formatOneError, h, show ".".intercalate ([] : List String) = "" from rfl]

/-- C10 witness: the empty-context issue evaluated concretely. -/
theorem formatter_total_on_empty_context_witness :
    (formatOneError ⟨[], .vNull⟩).key = "unknown" ∧
    (formatOneError ⟨[], .vNull⟩).expected = "unknown" ∧
    formatValidationErrors [⟨[], .vNull⟩] = [formatOneError ⟨[], .vNull⟩] :=
  formatter_total_on_empty_context ⟨[], .vNull⟩ rfl

/-- C1: with a schema present, for any error handler and any request
state, a successful decode leaves status and response body untouched and
invokes the continuation exactly once, while a failed decode sets status
400, writes exactly one JSON payload, and never invokes the continuation
(shown for `validateBody` and `validateParams`). -/
theorem decode_branch_discipline (sch : Schema) (eh : Option ErrorHandler)
    (s : MwState) :
    (∀ v, sch.decode s.req.body = .ok v →
      (validateBody (some sch) eh s).1.res.status = s.res.status ∧
      (validateBody (some sch) eh s).1.res.jsonBody = s.res.jsonBody ∧
      (validateBody (some sch) eh s).2 = 1) ∧
    (∀ issues, sch.decode s.req.body = .error issues →
      (validateBody (some sch) eh s).1.res.status = some 400 ∧
      (validateBody (some sch) eh s).1.res.jsonBody =
        some (computePayload eh issues) ∧
      (validateBody (some sch) eh s).2 = 0) ∧
    (∀ v, sch.decode s.req.params = .ok v →
      (validateParams (some sch) eh s).1.res.status = s.res.status ∧
      (validateParams (some sch) eh s).1.res.jsonBody = s.res.jsonBody ∧
      (validateParams (some sch) eh s).2 = 1) ∧
    (∀ issues, sch.decode s.req.params = .error issues →
      (validateParams (some sch) eh s).1.res.status = some 400 ∧
      (validateParams (some sch) eh s).1.res.jsonBody =
        some (computePayload eh issues) ∧
      (validateParams (some sch) eh s).2 = 0) := by
  refine ⟨fun v hv => ?_, fun issues hi => ?_, fun v hv => ?_, fun issues hi => ?_⟩
  · simp [validateBody, hv]
  · simp [validateBody, hi]
  · simp [validateParams, hv]
  · simp [validateParams, hi]

/-- C1 witness: both branches evaluated at concrete schemas and state. -/
theorem decode_branch_discipline_witness :
    ((validateBody (some succeedingSchema) none initState).2 = 1 ∧
      (validateBody (some succeedingSchema) none initState).1.res.jsonBody =
        initState.res.jsonBody) ∧
    ((validateParams (some failingSchema) none initState).1.res.status = some 400 ∧
      (validateParams (some failingSchema) none initState).2 = 0) :=
  ⟨⟨((decode_branch_discipline succeedingSchema none initState).1
      (.vNum 1) rfl).2.2,
    ((decode_branch_discipline succeedingSchema none initState).1
      (.vNum 1) rfl).2.1⟩,
   ⟨((decode_branch_discipline failingSchema none initState).2.2.2
      (failIssues (.vNum 3)) rfl).1,
    ((decode_branch_discipline failingSchema none initState).2.2.2
      (failIssues (.vNum 3)) rfl).2.2⟩⟩

/-- C6: on a successful decode the query middleware (standalone and
combined) leaves the request untouched and stores the decoded value only
in `locals.typedQuery`, while the combined params and body steps overwrite
their request field in place and mirror the decoded value to
`locals.typedParams` / `locals.typedBody`. -/
theorem success_write_discipline (sch : Schema) (eh : Option ErrorHandler)
    (s : MwState) (v : JSValue) :
    (sch.decode s.req.query = .ok v →
      validateQuery (some sch) eh s =
        ({ s with
            res := { s.res with
              locals := { s.res.locals with typedQuery := some v } } }, 1) ∧
      createCombinedQueryMiddleware (some sch) eh s =
        ({ s with
            res := { s.res with
              locals := { s.res.locals with typedQuery := some v } } }, 1)) ∧
    (sch.decode s.req.params = .ok v →
      createCombinedParamsMiddleware (some sch) eh s =
        ({ s with
            req := { s.req with params := v },
            res := { s.res with
              locals := { s.res.locals with typedParams := some v } } }, 1)) ∧
    (sch.decode s.req.body = .ok v →
      createCombinedBodyMiddleware (some sch) eh s =
        ({ s with
            req := { s.req with body := v },
            res := { s.res with
              locals := { s.res.locals with typedBody := some v } } }, 1)) := by
  refine ⟨fun h => ⟨?_, ?_⟩, fun h => ?_, fun h => ?_⟩ <;>
    simp [validateQuery, createCombinedQueryMiddleware,
      createCombinedParamsMiddleware, createCombinedBodyMiddleware, h]

/-- C6 witness: the three success shapes evaluated concretely. -/
theorem success_write_discipline_witness :
    validateQuery (some succeedingSchema) none initState =
      ({ initState with
          res := { initState.res with
            locals := { initState.res.locals with
              typedQuery := some (.vNum 2) } } }, 1) ∧
    createCombinedParamsMiddleware (some succeedingSchema) none initState =
      ({ initState with
          req := { initState.req with params := .vNum 3 },
          res := { initState.res with
            locals := { initState.res.locals with
              typedParams := some (.vNum 3) } } }, 1) ∧
    createCombinedBodyMiddleware (some succeedingSchema) none initState =
      ({ initState with
          req := { initState.req with body := .vNum 1 },
          res := { initState.res with
            locals := { initState.res.locals with
              typedBody := some (.vNum 1) } } }, 1) :=
  ⟨((success_write_discipline succeedingSchema none initState (.vNum 2)).1 rfl).1,
   (success_write_discipline succeedingSchema none initState (.vNum 3)).2.1 rfl,
   (success_write_discipline succeedingSchema none initState (.vNum 1)).2.2 rfl⟩

/-- C8: on a failed decode, every middleware's only effect is setting
status 400 and the JSON body: the request's body/query/params and every
side-channel entry are exactly as before the call. -/
theorem failure_atomicity (sch : Schema) (eh : Option ErrorHandler)
    (s : MwState) (issues : List IssueDetail) :
    (sch.decode s.req.body = .error issues →
      validateBody (some sch) eh s =
        ({ s with
            res := { s.res with
              status := some 400,
              jsonBody := some (computePayload eh issues) } }, 0) ∧
      createCombinedBodyMiddleware (some sch) eh s =
        ({ s with
            res := { s.res with
              status := some 400,
              jsonBody := some (computePayload eh issues) } }, 0)) ∧
    (sch.decode s.req.query = .error issues →
      validateQuery (some sch) eh s =
        ({ s with
            res := { s.res with
              status := some 400,
              jsonBody := some (computePayload eh issues) } }, 0) ∧
      createCombinedQueryMiddleware (some sch) eh s =
        ({ s with
            res := { s.res with
              status := some 400,
              jsonBody := some (computePayload eh issues) } }, 0)) ∧
    (sch.decode s.req.params = .error issues →
      validateParams (some sch) eh s =
        ({ s with
            res := { s.res with
              status := some 400,
              jsonBody := some (computePayload eh issues) } }, 0) ∧
      createCombinedParamsMiddleware (some sch) eh s =
        ({ s with
            res := { s.res with
              status := some 400,
              jsonBody := some (computePayload eh issues) } }, 0)) := by
  refine ⟨fun h => ⟨?_, ?_⟩, fun h => ⟨?_, ?_⟩, fun h => ⟨?_, ?_⟩⟩ <;>
    simp [validateBody, validateQuery, validateParams,
      createCombinedQueryMiddleware, createCombinedParamsMiddleware,
      createCombinedBodyMiddleware, h]

/-- C8 witness: atomic failure evaluated concretely for body and params. -/
theorem failure_atomicity_witness :
    validateBody (some failingSchema) none initState =
      ({ initState with
          res := { initState.res with
            status := some 400,
            jsonBody := some (computePayload none (failIssues (.vNum 1))) } }, 0) ∧
    createCombinedParamsMiddleware (some failingSchema) none initState =
      ({ initState with
          res := { initState.res with
            status := some 400,
            jsonBody := some (computePayload none (failIssues (.vNum 3))) } }, 0) :=
  ⟨((failure_atomicity failingSchema none initState (failIssues (.vNum 1))).1 rfl).1,
   ((failure_atomicity failingSchema none initState (failIssues (.vNum 3))).2.2 rfl).2⟩

/-- C9: a supplied custom error handler whose result is null or undefined
is not used as the payload: the 400 body silently falls back to the
default wrapped shape. -/
theorem nullish_handler_falls_back (h : ErrorHandler) (sch : Schema)
    (s : MwState) (issues : List IssueDetail)
    (hn : isNullish (h issues) = true)
    (hd : sch.decode s.req.body = .error issues) :
    computePayload (some h) issues = fallbackPayload issues ∧
    (validateBody (some sch) (some h) s).1.res.jsonBody =
      some (fallbackPayload issues) ∧
    (validateQuery (some sch) (some h)
        { s with req := { s.req with query := s.req.body } }).1.res.jsonBody =
      some (fallbackPayload issues) := by
  have hp : computePayload (some h) issues = fallbackPayload issues := by
    simp [computePayload, hn]
  refine ⟨hp, ?_, ?_⟩ <;> simp [validateBody, validateQuery, hd, hp]

/-- C9 witness: a null-returning handler at a concrete failing decode. -/
theorem nullish_handler_falls_back_witness :
    computePayload (some nullHandler) (failIssues (.vNum 1)) =
      fallbackPayload (failIssues (.vNum 1)) ∧
    (validateBody (some failingSchema) (some nullHandler) initState).1.res.jsonBody =
      some (fallbackPayload (failIssues (.vNum 1))) :=
  ⟨(nullish_handler_falls_back nullHandler failingSchema initState
      (failIssues (.vNum 1)) rfl rfl).1,
   (nullish_handler_falls_back nullHandler failingSchema initState
      (failIssues (.vNum 1)) rfl rfl).2.1⟩

/-- C2: `validate` returns exactly the 4 callables
[queryStep, paramsStep, bodyStep, handler] in that fixed order; running the
chain, a failure at ANY step halts it with status 400 and the handler never
executes: a query-step failure executes only 1 callable, a params-step
failure (query having proceeded) only 2, a body-step failure (query and
params having proceeded) only 3. -/
theorem validate_chain_shape_and_shortcircuit (schemas : Schemas)
    (handler : Handler) :
    validate schemas handler =
      [Callable.middleware (createCombinedQueryMiddleware schemas.query none),
       Callable.middleware (createCombinedParamsMiddleware schemas.params none),
       Callable.middleware (createCombinedBodyMiddleware schemas.body none),
       Callable.handlerStep handler] ∧
    (validate schemas handler).length = 4 ∧
    (∀ s q issues, schemas.query = some q →
      q.decode s.req.query = .error issues →
      (runChain (validate schemas handler) s).2.1 = 1 ∧
      (runChain (validate schemas handler) s).2.2 = false ∧
      (runChain (validate schemas handler) s).1.res.status = some 400) ∧
    (∀ s s1 p issues, schemas.params = some p →
      createCombinedQueryMiddleware schemas.query none s = (s1, 1) →
      p.decode s1.req.params = .error issues →
      (runChain (validate schemas handler) s).2.1 = 2 ∧
      (runChain (validate schemas handler) s).2.2 = false ∧
      (runChain (validate schemas handler) s).1.res.status = some 400) ∧
    (∀ s s1 s2 b issues, schemas.body = some b →
      createCombinedQueryMiddleware schemas.query none s = (s1, 1) →
      createCombinedParamsMiddleware schemas.params none s1 = (s2, 1) →
      b.decode s2.req.body = .error issues →
      (runChain (validate schemas handler) s).2.1 = 3 ∧
      (runChain (validate schemas handler) s).2.2 = false ∧
      (runChain (validate schemas handler) s).1.res.status = some 400) := by
  refine ⟨rfl, rfl, ?_, ?_, ?_⟩
  · intro s q issues hqs hf
    simp [validate, runChain, hqs, createCombinedQueryMiddleware, hf]
  · intro s s1 p issues hp hq hf
    simp [validate, runChain, hq, hp, createCombinedParamsMiddleware, hf]
  · intro s s1 s2 b issues hb hq hp hf
    simp [validate, runChain, hq, hp, hb, createCombinedBodyMiddleware, hf]

/-- C2 witness: a rejecting schema placed at the query, params, and body
positions in turn, each halting the chain at its own step. -/
theorem validate_chain_shape_and_shortcircuit_witness :
    (runChain (validate ⟨some failingSchema, none, none⟩ idHandler) initState).2.1 = 1 ∧
    (runChain (validate ⟨none, some failingSchema, none⟩ idHandler) initState).2.1 = 2 ∧
    (runChain (validate ⟨none, none, some failingSchema⟩ idHandler) initState).2.1 = 3 ∧
    (runChain (validate ⟨none, none, some failingSchema⟩ idHandler) initState).2.2 = false ∧
    (runChain (validate ⟨none, none, some failingSchema⟩ idHandler) initState).1.res.status =
      some 400 :=
  ⟨((validate_chain_shape_and_shortcircuit ⟨some failingSchema, none, none⟩
      idHandler).2.2.1 initState failingSchema (failIssues (.vNum 2))
      rfl rfl).1,
   ((validate_chain_shape_and_shortcircuit ⟨none, some failingSchema, none⟩
      idHandler).2.2.2.1 initState initState failingSchema
      (failIssues (.vNum 3)) rfl rfl rfl).1,
   ((validate_chain_shape_and_shortcircuit ⟨none, none, some failingSchema⟩
      idHandler).2.2.2.2 initState initState initState failingSchema
      (failIssues (.vNum 1)) rfl rfl rfl rfl).1,
   ((validate_chain_shape_and_shortcircuit ⟨none, none, some failingSchema⟩
      idHandler).2.2.2.2 initState initState initState failingSchema
      (failIssues (.vNum 1)) rfl rfl rfl rfl).2.1,
   ((validate_chain_shape_and_shortcircuit ⟨none, none, some failingSchema⟩
      idHandler).2.2.2.2 initState initState initState failingSchema
      (failIssues (.vNum 1)) rfl rfl rfl rfl).2.2⟩

/-- C4 counterexample: a middleware obtained from `Validator()` (no custom
error handler) responds on a failed decode with the BARE formatted-error
array, not with the wrapped shape the claim predicts, because the
pre-bound `defaultErrorHandler` returns the unwrapped array. -/
theorem validator_default_payload_not_wrapped :
    ((((Validator none).validateBody failingSchema idHandler).1) initState).1.res.jsonBody =
      some (JSValue.vArr ((formatValidationErrors (failIssues (.vNum 1))).map
        defaultErrorToJS)) ∧
    ((((Validator none).validateBody failingSchema idHandler).1) initState).1.res.jsonBody ≠
      some (JSValue.vObj [("errors", JSValue.vArr
        ((formatValidationErrors (failIssues (.vNum 1))).map defaultErrorToJS))]) := by
  have hA : ((((Validator none).validateBody failingSchema idHandler).1)
      initState).1.res.jsonBody =
      some (JSValue.vArr ((formatValidationErrors (failIssues (.vNum 1))).map
        defaultErrorToJS)) := rfl
  refine ⟨hA, ?_⟩
  rw [hA]
  intro hc
  exact JSValue.noConfusion (Option.some.inj hc)

/-- C4 (amended): on a failed decode the payload is `errorHandler(issues)`
when a handler was supplied and its result is not nullish, and
`\x7b errors: formatted \x7d` when none was supplied; operations from
`Validator()` without a custom handler have `defaultErrorHandler`
pre-bound, so their payload is the bare formatted array, not the wrapped
shape. -/
theorem payload_selection_amended (sch : Schema) (s : MwState)
    (issues : List IssueDetail)
    (hd : sch.decode s.req.body = .error issues) :
    (validateBody (some sch) none s).1.res.jsonBody =
      some (fallbackPayload issues) ∧
    (∀ h : ErrorHandler, isNullish (h issues) = false →
      (validateBody (some sch) (some h) s).1.res.jsonBody = some (h issues)) ∧
    (∀ hnd : Handler,
      ((((Validator none).validateBody sch hnd).1) s).1.res.jsonBody =
        some (JSValue.vArr ((formatValidationErrors issues).map defaultErrorToJS))) := by
  refine ⟨?_, fun h hn => ?_, fun hnd => ?_⟩
  · simp [validateBody, hd, computePayload]
  · simp [validateBody, hd, computePayload, hn]
  · simp [Validator, validateBodyWithErrorHandler, validateBody, hd,
      computePayload, defaultErrorHandler, isNullish]

/-- C4 witness: the amended payload rule at a concrete failing decode. -/
theorem payload_selection_amended_witness :
    (validateBody (some failingSchema) none initState).1.res.jsonBody =
      some (fallbackPayload (failIssues (.vNum 1))) ∧
    ((((Validator none).validateBody failingSchema idHandler).1)
        initState).1.res.jsonBody =
      some (JSValue.vArr ((formatValidationErrors (failIssues (.vNum 1))).map
        defaultErrorToJS)) :=
  ⟨(payload_selection_amended failingSchema initState
      (failIssues (.vNum 1)) rfl).1,
   (payload_selection_amended failingSchema initState
      (failIssues (.vNum 1)) rfl).2.2 idHandler⟩
